import Mathlib

/-!
Shallow embedding of the MARS Core War simulator (richpl/MARS).

Source files embedded:
* `assemblytoken.py` — the numeric token codes (class attributes of
  `AssemblyToken`), used for opcodes, addressing modes and the NULL sentinel.
* `core.py` — class `Core`: the memory array of 5-element instruction words,
  its field readers and writers, all guarded by an explicit range check that
  raises `IndexError`.
* `interpreter.py` — class `Program` (process list plus cursor), class
  `Interpreter`: `__next`, `__get_direct_address`, `__execute_jmp`,
  `__execute_mov`, `execute`, `run`.

Python exceptions are modelled with `Except PyErr`; Python's `%` on a
positive divisor agrees with Lean's `Int.emod` (the `%` of `Int`), which is
what the embedding uses.  `Token.INDIRECT`, referenced by `interpreter.py`,
is not defined in `assemblytoken.py`, so evaluating it raises
`AttributeError`; the branches of `__execute_mov` that reach the comparison
`b_mode == Token.INDIRECT` are therefore embedded as `AttributeError`.
-/

namespace MARS

/-- Python exception kinds raised by the embedded code. -/
inductive PyErr where
  | indexError : PyErr
  | runtimeError : PyErr
  | attributeError : PyErr
  deriving DecidableEq, Repr

/- Numeric token category codes from `assemblytoken.py`. -/
namespace Token

def DAT : Int := 0
def MOV : Int := 1
def ADD : Int := 2
def SUB : Int := 3
def MUL : Int := 4
def DIV : Int := 5
def MOD : Int := 6
def JMP : Int := 7
def JMZ : Int := 8
def JMN : Int := 9
def DJN : Int := 10
def SPL : Int := 11
def CMP : Int := 12
def SEQ : Int := 13
def SNE : Int := 14
def SLT : Int := 15
def LDP : Int := 16
def STP : Int := 17
def NOP : Int := 18
def IMMEDIATE : Int := 19
def DIRECT : Int := 20
def A_INDIRECT : Int := 21
def B_INDIRECT : Int := 22
def A_INDIRECT_PRE : Int := 23
def B_INDIRECT_PRE : Int := 24
def A_INDIRECT_POST : Int := 25
def B_INDIRECT_POST : Int := 26
def INT : Int := 27
def MINUS : Int := 28
def EOF : Int := 29
def NEWLINE : Int := 30
def COMMA : Int := 31
def NULL : Int := 32

end Token

/-- One core word: the 5-element list
`[opcode, a_field_mode, a_field_val, b_field_mode, b_field_val]`
stored at each address of `Core.__core`. -/
structure Cell where
  opcode : Int
  aMode : Int
  aVal : Int
  bMode : Int
  bVal : Int
  deriving DecidableEq, Repr

/-- The initial word `[Token.NULL] * 5` each core address is filled with. -/
def Cell.empty : Cell :=
  ⟨Token.NULL, Token.NULL, Token.NULL, Token.NULL, Token.NULL⟩

/-- The state of `core.py`'s class `Core`: the list `self.__core`. -/
structure Core where
  cells : List Cell
  deriving DecidableEq, Repr

/-- `Core.__init__(size)`: builds `[[NULL]*5 for index in range(size)]`.
Python's `range(size)` is empty for `size <= 0`, hence `Int.toNat`. -/
def Core.init (size : Int) : Core :=
  ⟨List.replicate size.toNat Cell.empty⟩

/-- `Core.coresize`: `len(self.__core)`, as a Python int. -/
def Core.coresize (c : Core) : Int :=
  (c.cells.length : Int)

/-- The cell stored at (an in-range) address; out-of-range reads are
guarded before this is consulted, so the default is never observable. -/
def Core.cellAt (c : Core) (address : Int) : Cell :=
  c.cells.getD address.toNat Cell.empty

/-- `Core.opcode(address)`. -/
def Core.opcode (address : Int) (c : Core) : Except PyErr Int :=
  if address < 0 ∨ c.coresize ≤ address then .error .indexError
  else .ok (c.cellAt address).opcode

/-- `Core.a_field_mode(address)`. -/
def Core.a_field_mode (address : Int) (c : Core) : Except PyErr Int :=
  if address < 0 ∨ c.coresize ≤ address then .error .indexError
  else .ok (c.cellAt address).aMode

/-- `Core.a_field_val(address)`. -/
def Core.a_field_val (address : Int) (c : Core) : Except PyErr Int :=
  if address < 0 ∨ c.coresize ≤ address then .error .indexError
  else .ok (c.cellAt address).aVal

/-- `Core.b_field_mode(address)`. -/
def Core.b_field_mode (address : Int) (c : Core) : Except PyErr Int :=
  if address < 0 ∨ c.coresize ≤ address then .error .indexError
  else .ok (c.cellAt address).bMode

/-- `Core.b_field_val(address)`. -/
def Core.b_field_val (address : Int) (c : Core) : Except PyErr Int :=
  if address < 0 ∨ c.coresize ≤ address then .error .indexError
  else .ok (c.cellAt address).bVal

/-- `Core.put_instr(opcode, a_field_mode, a_field_val, b_field_mode,
b_field_val, address)`: overwrite the whole word. -/
def Core.put_instr (opcode aMode aVal bMode bVal address : Int)
    (c : Core) : Except PyErr Core :=
  if address < 0 ∨ c.coresize ≤ address then .error .indexError
  else .ok ⟨c.cells.set address.toNat ⟨opcode, aMode, aVal, bMode, bVal⟩⟩

/-- `Core.put_opcode(opcode, address)`: overwrite element 0 of the word. -/
def Core.put_opcode (opcode address : Int) (c : Core) : Except PyErr Core :=
  if address < 0 ∨ c.coresize ≤ address then .error .indexError
  else .ok ⟨c.cells.set address.toNat { c.cellAt address with opcode := opcode }⟩

/-- `Core.put_a_field_mode(a_field_mode, address)`. -/
def Core.put_a_field_mode (aMode address : Int) (c : Core) : Except PyErr Core :=
  if address < 0 ∨ c.coresize ≤ address then .error .indexError
  else .ok ⟨c.cells.set address.toNat { c.cellAt address with aMode := aMode }⟩

/-- `Core.put_a_field_val(a_field_val, address)`. -/
def Core.put_a_field_val (aVal address : Int) (c : Core) : Except PyErr Core :=
  if address < 0 ∨ c.coresize ≤ address then .error .indexError
  else .ok ⟨c.cells.set address.toNat { c.cellAt address with aVal := aVal }⟩

/-- `Core.put_b_field_mode(b_field_mode, address)`. -/
def Core.put_b_field_mode (bMode address : Int) (c : Core) : Except PyErr Core :=
  if address < 0 ∨ c.coresize ≤ address then .error .indexError
  else .ok ⟨c.cells.set address.toNat { c.cellAt address with bMode := bMode }⟩

/-- `Core.put_b_field_val(b_field_val, address)`. -/
def Core.put_b_field_val (bVal address : Int) (c : Core) : Except PyErr Core :=
  if address < 0 ∨ c.coresize ≤ address then .error .indexError
  else .ok ⟨c.cells.set address.toNat { c.cellAt address with bVal := bVal }⟩

/-- `Interpreter.__next(address)`: the subsequent address, wrapping at the
end of the core. -/
def Interp.next (address : Int) (c : Core) : Int :=
  if address = c.coresize - 1 then 0 else address + 1

/-- `Interpreter.__get_direct_address(direct_val, address)`:
`(direct_val + address) % coresize` after the range check on `address`. -/
def Interp.getDirectAddress (directVal address : Int) (c : Core) :
    Except PyErr Int :=
  if address < 0 ∨ c.coresize ≤ address then .error .indexError
  else .ok ((directVal + address) % c.coresize)

/-- `Interpreter.__execute_jmp(address)`.  For IMMEDIATE it returns the raw
A-field literal; for DIRECT it returns the A-field value stored at the
resolved address `(a_val + address) % coresize`; otherwise it raises
`RuntimeError('Invalid JMP addressing mode')`. -/
def Interp.executeJmp (address : Int) (c : Core) : Except PyErr Int :=
  match Core.a_field_mode address c with
  | .error e => .error e
  | .ok aMode =>
    match Core.a_field_val address c with
    | .error e => .error e
    | .ok aVal =>
      if aMode = Token.IMMEDIATE then
        Core.a_field_val address c
      else if aMode = Token.DIRECT then
        match Interp.getDirectAddress aVal address c with
        | .error e => .error e
        | .ok dest => Core.a_field_val dest c
      else .error .runtimeError

/-- `Interpreter.__execute_mov(address)`: returns the mutated core together
with `Interpreter.__next(address)`.  The `elif b_mode == Token.INDIRECT`
tests of the Python code evaluate the attribute `Token.INDIRECT`, which
`assemblytoken.py` does not define, so every branch that reaches them
raises `AttributeError`. -/
def Interp.executeMov (address : Int) (c : Core) : Except PyErr (Core × Int) :=
  match Core.a_field_mode address c with
  | .error e => .error e
  | .ok aMode =>
    match Core.a_field_val address c with
    | .error e => .error e
    | .ok aVal =>
      match Core.b_field_mode address c with
      | .error e => .error e
      | .ok bMode =>
        match Core.b_field_val address c with
        | .error e => .error e
        | .ok _bVal =>
          if aMode = Token.IMMEDIATE then
            if bMode = Token.IMMEDIATE then
              match Core.put_b_field_val aVal address c with
              | .error e => .error e
              | .ok c1 => .ok (c1, Interp.next address c1)
            else if bMode = Token.DIRECT then
              match Interp.getDirectAddress _bVal address c with
              | .error e => .error e
              | .ok dest =>
                match Core.put_b_field_val aVal dest c with
                | .error e => .error e
                | .ok c1 => .ok (c1, Interp.next address c1)
            else .error .attributeError
          else if aMode = Token.DIRECT then
            match Interp.getDirectAddress aVal address c with
            | .error e => .error e
            | .ok src =>
              if bMode = Token.IMMEDIATE then
                match Core.b_field_val src c with
                | .error e => .error e
                | .ok v =>
                  match Core.put_b_field_val v address c with
                  | .error e => .error e
                  | .ok c1 => .ok (c1, Interp.next address c1)
              else if bMode = Token.DIRECT then
                match Interp.getDirectAddress _bVal address c with
                | .error e => .error e
                | .ok dest =>
                  match Core.opcode src c with
                  | .error e => .error e
                  | .ok o =>
                    match Core.a_field_mode src c with
                    | .error e => .error e
                    | .ok am =>
                      match Core.a_field_val src c with
                      | .error e => .error e
                      | .ok av =>
                        match Core.b_field_mode src c with
                        | .error e => .error e
                        | .ok bm =>
                          match Core.b_field_val src c with
                          | .error e => .error e
                          | .ok bv =>
                            match Core.put_instr o am av bm bv dest c with
                            | .error e => .error e
                            | .ok c1 => .ok (c1, Interp.next address c1)
              else .error .attributeError
          else
            match Interp.getDirectAddress aVal address c with
            | .error e => .error e
            | .ok intermediate =>
              match Core.a_field_val intermediate c with
              | .error e => .error e
              | .ok interA =>
                match Interp.getDirectAddress (aVal + interA) address c with
                | .error e => .error e
                | .ok src =>
                  if bMode = Token.IMMEDIATE then
                    match Core.a_field_val src c with
                    | .error e => .error e
                    | .ok v =>
                      match Core.put_b_field_val v address c with
                      | .error e => .error e
                      | .ok c1 => .ok (c1, Interp.next address c1)
                  else if bMode = Token.DIRECT then
                    match Interp.getDirectAddress _bVal address c with
                    | .error e => .error e
                    | .ok dest =>
                      match Core.opcode src c with
                      | .error e => .error e
                      | .ok o =>
                        match Core.a_field_mode src c with
                        | .error e => .error e
                        | .ok am =>
                          match Core.a_field_val src c with
                          | .error e => .error e
                          | .ok av =>
                            match Core.b_field_mode src c with
                            | .error e => .error e
                            | .ok bm =>
                              match Core.b_field_val src c with
                              | .error e => .error e
                              | .ok bv =>
                                match Core.put_instr o am av bm bv dest c with
                                | .error e => .error e
                                | .ok c1 => .ok (c1, Interp.next address c1)
                  else .error .attributeError

/-- `Interpreter.execute(address)`: returns the (possibly mutated) core and
the value Python returns — `some pc` for the implemented opcodes NOP, MOV
and JMP, `none` for the `pass`/TODO branches (Python's implicit `None`),
and a `RuntimeError` for DAT, NULL, an unrecognised opcode or an
out-of-range address. -/
def Interp.execute (address : Int) (c : Core) :
    Except PyErr (Core × Option Int) :=
  if address < 0 ∨ c.coresize ≤ address then .error .runtimeError
  else
    match Core.opcode address c with
    | .error e => .error e
    | .ok op =>
      if op = Token.NOP then .ok (c, some (Interp.next address c))
      else if op = Token.DAT then .error .runtimeError
      else if op = Token.MOV then
        match Interp.executeMov address c with
        | .error e => .error e
        | .ok (c1, pc) => .ok (c1, some pc)
      else if op = Token.ADD then .ok (c, none)
      else if op = Token.SUB then .ok (c, none)
      else if op = Token.MUL then .ok (c, none)
      else if op = Token.DIV then .ok (c, none)
      else if op = Token.MOD then .ok (c, none)
      else if op = Token.JMP then
        match Interp.executeJmp address c with
        | .error e => .error e
        | .ok pc => .ok (c, some pc)
      else if op = Token.JMZ then .ok (c, none)
      else if op = Token.JMN then .ok (c, none)
      else if op = Token.DJN then .ok (c, none)
      else if op = Token.SPL then .ok (c, none)
      else if op = Token.CMP then .ok (c, none)
      else if op = Token.SEQ then .ok (c, none)
      else if op = Token.SNE then .ok (c, none)
      else if op = Token.SLT then .ok (c, none)
      else if op = Token.LDP then .ok (c, none)
      else if op = Token.STP then .ok (c, none)
      else if op = Token.NULL then .error .runtimeError
      else .error .runtimeError

/-- State of `interpreter.py`'s class `Program`: the process list
`self.__processes` and the cursor `self.__index` (never negative in the
source: it starts at 0 and is only reset to 0 or incremented). -/
structure Program where
  processes : List Int
  index : Nat
  deriving DecidableEq, Repr

/-- `Program.__init__(base_address)`. -/
def Program.init (base : Int) : Program :=
  ⟨[base], 0⟩

/-- `Program.current_process_pc()`: raises `IndexError` when the process
list is empty, and Python's list indexing raises `IndexError` when the
cursor is out of bounds. -/
def Program.current_process_pc (p : Program) : Except PyErr Int :=
  if p.processes.length = 0 then .error .indexError
  else if h : p.index < p.processes.length then
    .ok (p.processes.get ⟨p.index, h⟩)
  else .error .indexError

/-- `Program.kill_current_process()`: `del self.__processes[self.__index]`
after the empty-list check; Python's `del` raises `IndexError` for an
out-of-bounds cursor.  The cursor itself is left untouched. -/
def Program.kill_current_process (p : Program) : Except PyErr Program :=
  if p.processes.length = 0 then .error .indexError
  else if p.index < p.processes.length then
    .ok ⟨p.processes.eraseIdx p.index, p.index⟩
  else .error .indexError

/-- `Program.next_process()`: advance the cursor, wrapping to 0. -/
def Program.next_process (p : Program) : Except PyErr Program :=
  if p.processes.length = 0 then .error .indexError
  else if p.index = p.processes.length - 1 then .ok ⟨p.processes, 0⟩
  else .ok ⟨p.processes, p.index + 1⟩

/-- `Program.update_current_process_pc(address)`. -/
def Program.update_current_process_pc (address : Int) (p : Program) :
    Except PyErr Program :=
  if p.processes.length = 0 then .error .indexError
  else if p.index < p.processes.length then
    .ok ⟨p.processes.set p.index address, p.index⟩
  else .error .indexError

/-- State of `interpreter.py`'s class `Interpreter`: the core and the
insertion-ordered dict `self.__programs` mapping each base address to its
`Program`. -/
structure Interp where
  core : Core
  programs : List (Int × Program)
  deriving DecidableEq, Repr

/-- `Interpreter.__init__(core, base_addresses)`. -/
def Interp.init (c : Core) (baseAddresses : List Int) : Interp :=
  ⟨c, baseAddresses.map fun b => (b, Program.init b)⟩

/-- `Interpreter.run()`.  The loop `for program in self.__programs` iterates
over the dict's KEYS, which are the base addresses (Python ints).  The very
first statement of the loop body, `program.current_process_pc()`, is an
attribute lookup on an int and raises `AttributeError`; neither `except`
clause (`RuntimeError`, `IndexError`) catches it, so with at least one
program registered `run` raises before executing any instruction.  With no
programs the loop body never runs and `run` returns normally. -/
def Interp.run (i : Interp) : Except PyErr Interp :=
  match i.programs with
  | [] => .ok i
  | _ :: _ => .error .attributeError

/-- One mutating `Core` operation, as a caller of `core.py` can issue it. -/
inductive CoreOp where
  | putInstr (opcode aMode aVal bMode bVal address : Int) : CoreOp
  | putOpcode (opcode address : Int) : CoreOp
  | putAFieldMode (aMode address : Int) : CoreOp
  | putAFieldVal (aVal address : Int) : CoreOp
  | putBFieldMode (bMode address : Int) : CoreOp
  | putBFieldVal (bVal address : Int) : CoreOp
  deriving DecidableEq, Repr

/-- The core a fallible write leaves behind: the new core on success, the
old one when the operation raised (every `core.py` writer checks the
address before mutating, so a raise leaves the list untouched). -/
def orUnchanged (e : Except PyErr Core) (c : Core) : Core :=
  match e with
  | .ok c1 => c1
  | .error _ => c

/-- Apply one mutating operation to the core. -/
def applyCoreOp (op : CoreOp) (c : Core) : Core :=
  match op with
  | .putInstr o am av bm bv a => orUnchanged (Core.put_instr o am av bm bv a c) c
  | .putOpcode o a => orUnchanged (Core.put_opcode o a c) c
  | .putAFieldMode am a => orUnchanged (Core.put_a_field_mode am a c) c
  | .putAFieldVal av a => orUnchanged (Core.put_a_field_val av a c) c
  | .putBFieldMode bm a => orUnchanged (Core.put_b_field_mode bm a c) c
  | .putBFieldVal bv a => orUnchanged (Core.put_b_field_val bv a c) c

/-- Apply a sequence of mutating operations left to right. -/
def applyCoreOps (ops : List CoreOp) (c : Core) : Core :=
  ops.foldl (fun c op => applyCoreOp op c) c

/-- `true` iff the embedded Python call returned normally. -/
def isOkB {α : Type} (e : Except PyErr α) : Bool :=
  match e with
  | .ok _ => true
  | .error _ => false

theorem isOkB_guard {α : Type} (x s : Int) (v : α) :
    (isOkB (if x < 0 ∨ s ≤ x then (Except.error PyErr.indexError : Except PyErr α)
      else Except.ok v) = true) ↔ 0 ≤ x ∧ x < s := by
  split <;> simp [isOkB] <;> omega

theorem opcode_ok (c : Core) (x : Int) (h0 : 0 ≤ x) (h1 : x < c.coresize) :
    Core.opcode x c = .ok (c.cellAt x).opcode := by
  unfold Core.opcode; rw [if_neg (by omega)]

theorem a_field_mode_ok (c : Core) (x : Int) (h0 : 0 ≤ x) (h1 : x < c.coresize) :
    Core.a_field_mode x c = .ok (c.cellAt x).aMode := by
  unfold Core.a_field_mode; rw [if_neg (by omega)]

theorem a_field_val_ok (c : Core) (x : Int) (h0 : 0 ≤ x) (h1 : x < c.coresize) :
    Core.a_field_val x c = .ok (c.cellAt x).aVal := by
  unfold Core.a_field_val; rw [if_neg (by omega)]

theorem b_field_mode_ok (c : Core) (x : Int) (h0 : 0 ≤ x) (h1 : x < c.coresize) :
    Core.b_field_mode x c = .ok (c.cellAt x).bMode := by
  unfold Core.b_field_mode; rw [if_neg (by omega)]

theorem b_field_val_ok (c : Core) (x : Int) (h0 : 0 ≤ x) (h1 : x < c.coresize) :
    Core.b_field_val x c = .ok (c.cellAt x).bVal := by
  unfold Core.b_field_val; rw [if_neg (by omega)]

theorem getDirectAddress_ok (c : Core) (v x : Int) (h0 : 0 ≤ x)
    (h1 : x < c.coresize) :
    Interp.getDirectAddress v x c = .ok ((v + x) % c.coresize) := by
  unfold Interp.getDirectAddress; rw [if_neg (by omega)]

theorem put_instr_ok (c : Core) (o am av bm bv x : Int) (h0 : 0 ≤ x)
    (h1 : x < c.coresize) :
    Core.put_instr o am av bm bv x c =
      .ok ⟨c.cells.set x.toNat ⟨o, am, av, bm, bv⟩⟩ := by
  unfold Core.put_instr; rw [if_neg (by omega)]

theorem put_b_field_val_ok (c : Core) (bv x : Int) (h0 : 0 ≤ x)
    (h1 : x < c.coresize) :
    Core.put_b_field_val bv x c =
      .ok ⟨c.cells.set x.toNat { c.cellAt x with bVal := bv }⟩ := by
  unfold Core.put_b_field_val; rw [if_neg (by omega)]

theorem coresize_set (c : Core) (i : Nat) (v : Cell) :
    (Core.mk (c.cells.set i v)).coresize = c.coresize := by
  simp [Core.coresize]

theorem cellAt_set_self (c : Core) (x : Int) (v : Cell) (h0 : 0 ≤ x)
    (h1 : x < c.coresize) :
    (Core.mk (c.cells.set x.toNat v)).cellAt x = v := by
  unfold Core.cellAt
  have hx : x.toNat < c.cells.length := by
    unfold Core.coresize at h1; omega
  rw [List.getD_eq_getElem _ _ (by simpa using hx)]
  exact List.getElem_set_self _

theorem cellAt_set_ne (c : Core) (x q : Int) (v : Cell) (h0 : 0 ≤ x)
    (hq : 0 ≤ q) (hne : q ≠ x) :
    (Core.mk (c.cells.set x.toNat v)).cellAt q = c.cellAt q := by
  unfold Core.cellAt
  have hnat : x.toNat ≠ q.toNat := by omega
  by_cases hlt : q.toNat < c.cells.length
  · rw [List.getD_eq_getElem _ _ (by simpa using hlt),
      List.getD_eq_getElem _ _ hlt]
    exact List.getElem_set_ne hnat _
  · rw [List.getD_eq_default _ _ (by simp; omega),
      List.getD_eq_default _ _ (by omega)]

theorem next_eq_emod (c : Core) (x : Int) (h0 : 0 ≤ x) (h1 : x < c.coresize) :
    Interp.next x c = (x + 1) % c.coresize := by
  unfold Interp.next
  split
  · rw [show x + 1 = c.coresize from by omega, Int.emod_self]
  · rw [Int.emod_eq_of_lt (by omega) (by omega)]

theorem next_congr (c c1 : Core) (x : Int) (h : c1.coresize = c.coresize) :
    Interp.next x c1 = Interp.next x c := by
  unfold Interp.next; rw [h]

/-- C1, counterexample: reading address `8` in a core of size 8 (that is,
`x + k*size` for `x = 0`, `k = 1`) raises `IndexError` instead of being
normalized modulo the size, while reading address `0` succeeds — so
`Memory.read(x) == Memory.read(x + k*size)` fails and an out-of-range read
does fail. -/
theorem C1_counterexample :
    Core.opcode (0 + 1 * 8) (Core.init 8) = .error .indexError ∧
    Core.opcode 0 (Core.init 8) = .ok Token.NULL :=
  ⟨rfl, rfl⟩

/-- C1, amended: no Memory operation normalizes its address.  Every `Core`
operation (the five field readers, `put_instr`, and the five field/opcode
writers) succeeds exactly when the given integer address already lies in
`[0, coresize)`, and raises `IndexError` for every other integer address. -/
theorem C1_amended (c : Core) (x o am av bm bv : Int) :
    ((isOkB (Core.opcode x c) = true) ↔ (0 ≤ x ∧ x < c.coresize)) ∧
    ((isOkB (Core.a_field_mode x c) = true) ↔ (0 ≤ x ∧ x < c.coresize)) ∧
    ((isOkB (Core.a_field_val x c) = true) ↔ (0 ≤ x ∧ x < c.coresize)) ∧
    ((isOkB (Core.b_field_mode x c) = true) ↔ (0 ≤ x ∧ x < c.coresize)) ∧
    ((isOkB (Core.b_field_val x c) = true) ↔ (0 ≤ x ∧ x < c.coresize)) ∧
    ((isOkB (Core.put_instr o am av bm bv x c) = true) ↔ (0 ≤ x ∧ x < c.coresize)) ∧
    ((isOkB (Core.put_opcode o x c) = true) ↔ (0 ≤ x ∧ x < c.coresize)) ∧
    ((isOkB (Core.put_a_field_mode am x c) = true) ↔ (0 ≤ x ∧ x < c.coresize)) ∧
    ((isOkB (Core.put_a_field_val av x c) = true) ↔ (0 ≤ x ∧ x < c.coresize)) ∧
    ((isOkB (Core.put_b_field_mode bm x c) = true) ↔ (0 ≤ x ∧ x < c.coresize)) ∧
    ((isOkB (Core.put_b_field_val bv x c) = true) ↔ (0 ≤ x ∧ x < c.coresize)) :=
  ⟨isOkB_guard x c.coresize _, isOkB_guard x c.coresize _, isOkB_guard x c.coresize _,
   isOkB_guard x c.coresize _, isOkB_guard x c.coresize _, isOkB_guard x c.coresize _,
   isOkB_guard x c.coresize _, isOkB_guard x c.coresize _, isOkB_guard x c.coresize _,
   isOkB_guard x c.coresize _, isOkB_guard x c.coresize _⟩

/-- C8, counterexample: `Core.__init__(-5)` does not fail — there is no
`ConfigError` anywhere in the code.  `range(-5)` is simply empty, so
construction silently yields a core of size 0. -/
theorem C8_counterexample :
    (Core.init (-5)).coresize = 0 ∧ (Core.init (-5)).cells = [] :=
  ⟨rfl, rfl⟩

/-- C8, amended: construction never raises for an integer size; a negative
or zero size silently yields a core of size 0 (`coresize = max size 0`),
and any positive size yields a core of exactly that size. -/
theorem C8_amended (s : Int) : (Core.init s).coresize = max s 0 := by
  simp [Core.init, Core.coresize]

theorem coresize_orUnchanged_guard (P : Prop) [Decidable P] (err : PyErr)
    (c : Core) (i : Nat) (v : Cell) :
    (orUnchanged (if P then .error err else .ok ⟨c.cells.set i v⟩) c).coresize
      = c.coresize := by
  split <;> simp [orUnchanged, Core.coresize]

theorem coresize_applyCoreOp (op : CoreOp) (c : Core) :
    (applyCoreOp op c).coresize = c.coresize := by
  rcases op <;>
    simp only [applyCoreOp, Core.put_instr, Core.put_opcode, Core.put_a_field_mode,
      Core.put_a_field_val, Core.put_b_field_mode, Core.put_b_field_val] <;>
    exact coresize_orUnchanged_guard _ _ _ _ _

/-- C9: a core constructed with positive size `n` still reports coresize
`n` after any sequence of mutating `Core` operations (the field readers
return values and never touch the list, so the writers are the only
operations that could change it). -/
theorem C9_theorem (n : Int) (ops : List CoreOp) (h : 0 < n) :
    (applyCoreOps ops (Core.init n)).coresize = n := by
  have key : ∀ (ops : List CoreOp) (c : Core),
      (applyCoreOps ops c).coresize = c.coresize := by
    intro ops
    induction ops with
    | nil => intro c; rfl
    | cons op rest ih =>
      intro c
      have hstep : applyCoreOps (op :: rest) c = applyCoreOps rest (applyCoreOp op c) := rfl
      rw [hstep, ih, coresize_applyCoreOp]
  rw [key]
  simp [Core.init, Core.coresize]
  omega

/-- C9, witness: a concrete run — three writes (one of them out of range
and raising) on a core of size 3 leave the size at 3. -/
theorem C9_witness :
    (applyCoreOps
      [CoreOp.putOpcode Token.MOV 1,
       CoreOp.putInstr Token.DAT Token.IMMEDIATE 1 Token.IMMEDIATE 2 5,
       CoreOp.putAFieldVal 7 0] (Core.init 3)).coresize = 3 :=
  C9_theorem 3 _ (by decide)

/-- C10: if a `Program`'s cursor sits on the last entry of a process list
of length at least 2, `kill_current_process` removes that entry but leaves
the cursor equal to the new list length, so the very next
`current_process_pc` raises `IndexError` although the process list is
non-empty. -/
theorem C10_theorem (p : Program) (h2 : 2 ≤ p.processes.length)
    (hidx : p.index = p.processes.length - 1) :
    ∃ p1, Program.kill_current_process p = .ok p1 ∧
      p1.index = p1.processes.length ∧
      p1.processes ≠ [] ∧
      Program.current_process_pc p1 = .error .indexError := by
  have hlt : p.index < p.processes.length := by omega
  have hlen : (p.processes.eraseIdx p.index).length = p.processes.length - 1 :=
    List.length_eraseIdx_of_lt hlt
  refine ⟨⟨p.processes.eraseIdx p.index, p.index⟩, ?_, ?_, ?_, ?_⟩
  · unfold Program.kill_current_process
    rw [if_neg (by omega), if_pos hlt]
  · simp only [hlen]
    omega
  · intro hnil
    have hnil' : p.processes.eraseIdx p.index = [] := hnil
    rw [hnil'] at hlen
    simp at hlen
    omega
  · unfold Program.current_process_pc
    rw [if_neg (by simp only [hlen]; omega), dif_neg (by simp only [hlen]; omega)]

/-- C10, witness: the process list `[10, 20]` with cursor 1; after the
kill, the cursor (still 1) equals the new length and
`current_process_pc` raises. -/
theorem C10_witness :
    ∃ p1, Program.kill_current_process ⟨[10, 20], 1⟩ = .ok p1 ∧
      p1.index = p1.processes.length ∧
      p1.processes ≠ [] ∧
      Program.current_process_pc p1 = .error .indexError :=
  C10_theorem ⟨[10, 20], 1⟩ (by decide) (by decide)

/-- Test fixture for C2: a size-8 core holding `JMP $5` at address 0
(every other cell still the NULL sentinel word). -/
def c2Core : Core :=
  orUnchanged (Core.put_instr Token.JMP Token.DIRECT 5 Token.NULL Token.NULL 0
    (Core.init 8)) (Core.init 8)

/-- C2: executing `JMP $5` at address 0 returns the A-field *value* stored
at the resolved address `(5 + 0) % 8 = 5` — the NULL sentinel 32 sitting in
the untouched cell 5 — instead of the resolved address 5 itself
(`__execute_jmp` ends with `return self.__core.a_field_val(dest_address)`
where `return dest_address` was intended). -/
theorem C2_theorem :
    Interp.execute 0 c2Core = .ok (c2Core, some Token.NULL) ∧
    Interp.getDirectAddress 5 0 c2Core = .ok 5 ∧
    Token.NULL ≠ (5 : Int) :=
  ⟨rfl, rfl, by decide⟩

/-- Fixtures for C3: `MOV $1, $0` at address 0 and `DAT #9, #9` at 1 in a
size-8 core, and the core the copy produces. -/
def c3Core0 : Core :=
  orUnchanged (Core.put_instr Token.MOV Token.DIRECT 1 Token.DIRECT 0 0
    (Core.init 8)) (Core.init 8)

def c3Core : Core :=
  orUnchanged (Core.put_instr Token.DAT Token.IMMEDIATE 9 Token.IMMEDIATE 9 1
    c3Core0) c3Core0

def c3CoreAfter : Core :=
  orUnchanged (Core.put_instr Token.DAT Token.IMMEDIATE 9 Token.IMMEDIATE 9 0
    c3Core) c3Core

/-- C3, counterexample: `MOV` with both fields Direct, A-value 1 and
B-value 0, executed at `p = 0`, copies the instruction at `p+1` onto `p`
itself — the instruction at `p` does *not* stay unchanged when the
destination `(p + b) mod size` is `p`. -/
theorem C3_counterexample :
    Interp.execute 0 c3Core = .ok (c3CoreAfter, some 1) ∧
    c3CoreAfter.cellAt 0 ≠ c3Core.cellAt 0 :=
  ⟨rfl, by decide⟩

/-- Fixtures for C4: `MOV *1, #0` at address 0 (A-mode `A_INDIRECT`, B-mode
Immediate), `DAT #1, #7` at 1 and `DAT #5, #6` at 2 in a size-8 core, and
the core the move produces. -/
def c4Core0 : Core :=
  orUnchanged (Core.put_instr Token.MOV Token.A_INDIRECT 1 Token.IMMEDIATE 0 0
    (Core.init 8)) (Core.init 8)

def c4Core1 : Core :=
  orUnchanged (Core.put_instr Token.DAT Token.IMMEDIATE 1 Token.IMMEDIATE 7 1
    c4Core0) c4Core0

def c4Core : Core :=
  orUnchanged (Core.put_instr Token.DAT Token.IMMEDIATE 5 Token.IMMEDIATE 6 2
    c4Core1) c4Core1

def c4CoreAfter : Core :=
  orUnchanged (Core.put_b_field_val 5 0 c4Core) c4Core

/-- C4, counterexample: for a `MOV` whose A-mode is `A_INDIRECT` (so
non-immediate) and whose B-mode is Immediate, the code copies the
*A-field* value of the source cell (5, from cell 2 resolved through cell
1) into the executing cell's B-field — not the B-field value of the cell
at A's resolved address (6 at cell 2, or 7 at cell 1), as the claim states
for every non-immediate A-mode. -/
theorem C4_counterexample :
    Interp.execute 0 c4Core = .ok (c4CoreAfter, some 1) ∧
    (c4CoreAfter.cellAt 0).bVal = (c4Core.cellAt 2).aVal ∧
    (c4CoreAfter.cellAt 0).bVal ≠ (c4Core.cellAt 2).bVal ∧
    (c4CoreAfter.cellAt 0).bVal ≠ (c4Core.cellAt 1).bVal :=
  ⟨rfl, rfl, by decide, by decide⟩

/-- Test fixture for C5: a size-8 core whose cell 0 holds the SPL opcode. -/
def c5Core : Core :=
  orUnchanged (Core.put_opcode Token.SPL 0 (Core.init 8)) (Core.init 8)

/-- C5, counterexample: SPL is a valid opcode distinct from DAT and NULL,
yet `execute` returns no follow-on program counter at all for it (the
branch body is a bare `pass`, so Python returns `None`) — neither the two
counters the claim requires for SPL nor even one. -/
theorem C5_counterexample :
    Interp.execute 0 c5Core = .ok (c5Core, none) ∧
    (c5Core.cellAt 0).opcode = Token.SPL ∧
    Token.SPL ≠ Token.DAT ∧ Token.SPL ≠ Token.NULL :=
  ⟨rfl, rfl, by decide, by decide⟩

/-- Test fixture for C6: a size-8 core holding `JMP #100` at address 0. -/
def c6Core : Core :=
  orUnchanged (Core.put_instr Token.JMP Token.IMMEDIATE 100 Token.NULL Token.NULL 0
    (Core.init 8)) (Core.init 8)

/-- C6, counterexample: executing `JMP #100` in a core of size 8 returns
program counter 100, far outside `[0, coresize)` — JMP targets are not
wrapped modulo the Memory size. -/
theorem C6_counterexample :
    Interp.execute 0 c6Core = .ok (c6Core, some 100) ∧
    ¬(100 < c6Core.coresize) :=
  ⟨rfl, by decide⟩

/-- Test fixture for C7: a size-8 core whose cell 0 holds DAT. -/
def c7Core : Core :=
  orUnchanged (Core.put_opcode Token.DAT 0 (Core.init 8)) (Core.init 8)

/-- C7: with one program registered at base address 0 whose cell holds DAT,
`run` raises `AttributeError` to its caller before any instruction is
executed — the loop `for program in self.__programs` yields the dict keys
(ints), and `program.current_process_pc()` is an attribute lookup on an
int, which neither `except RuntimeError` nor `except IndexError` catches.
The second conjunct shows the `RuntimeError` that executing the DAT would
raise (the error the claim says is recovered) is never even reached. -/
theorem C7_theorem :
    Interp.run (Interp.init c7Core [0]) = .error .attributeError ∧
    Interp.execute 0 c7Core = .error .runtimeError :=
  ⟨rfl, rfl⟩

theorem execute_mov_dispatch (c : Core) (p : Int) (h0 : 0 ≤ p)
    (h1 : p < c.coresize) (hop : (c.cellAt p).opcode = Token.MOV) :
    Interp.execute p c =
      match Interp.executeMov p c with
      | .error e => .error e
      | .ok (c1, pc) => .ok (c1, some pc) := by
  unfold Interp.execute
  rw [if_neg (by omega), opcode_ok c p h0 h1, hop]
  dsimp only
  norm_num [Token.MOV, Token.NOP, Token.DAT]

theorem execute_jmp_dispatch (c : Core) (p : Int) (h0 : 0 ≤ p)
    (h1 : p < c.coresize) (hop : (c.cellAt p).opcode = Token.JMP) :
    Interp.execute p c =
      match Interp.executeJmp p c with
      | .error e => .error e
      | .ok pc => .ok (c, some pc) := by
  unfold Interp.execute
  rw [if_neg (by omega), opcode_ok c p h0 h1, hop]
  dsimp only
  norm_num [Token.JMP, Token.NOP, Token.DAT, Token.MOV, Token.ADD, Token.SUB,
    Token.MUL, Token.DIV, Token.MOD]

/-- C5, amended: for an in-range address, `execute` returns no follow-on
program counter at all (Python `None`) when the opcode is any of the
fifteen unimplemented ones — ADD, SUB, MUL, DIV, MOD, JMZ, JMN, DJN, SPL,
CMP, SEQ, SNE, SLT, LDP, STP — and exactly one when it is NOP.  (MOV and
JMP also return exactly one when their addressing modes are supported; see
the C3/C4/C6 theorems.)  In particular SPL never produces two counters. -/
theorem C5_amended (c : Core) (a : Int) (h0 : 0 ≤ a) (h1 : a < c.coresize) :
    ((c.cellAt a).opcode ∈ ([Token.ADD, Token.SUB, Token.MUL, Token.DIV,
        Token.MOD, Token.JMZ, Token.JMN, Token.DJN, Token.SPL, Token.CMP,
        Token.SEQ, Token.SNE, Token.SLT, Token.LDP, Token.STP] : List Int) →
      Interp.execute a c = .ok (c, none)) ∧
    ((c.cellAt a).opcode = Token.NOP →
      Interp.execute a c = .ok (c, some (Interp.next a c))) := by
  constructor
  · intro hmem
    unfold Interp.execute
    rw [if_neg (by omega), opcode_ok c a h0 h1]
    simp only [List.mem_cons, List.not_mem_nil, or_false] at hmem
    rcases hmem with h|h|h|h|h|h|h|h|h|h|h|h|h|h|h
    all_goals rw [h]
    all_goals dsimp only
    all_goals norm_num [Token.ADD, Token.SUB, Token.MUL, Token.DIV, Token.MOD,
      Token.JMZ, Token.JMN, Token.DJN, Token.SPL, Token.CMP, Token.SEQ,
      Token.SNE, Token.SLT, Token.LDP, Token.STP, Token.NOP, Token.DAT,
      Token.MOV, Token.JMP, Token.NULL]
  · intro hnop
    unfold Interp.execute
    rw [if_neg (by omega), opcode_ok c a h0 h1, hnop]
    dsimp only
    norm_num [Token.NOP]

/-- C5, witness: the SPL fixture evaluated through the amended theorem —
executing the SPL cell yields no follow-on counter. -/
theorem C5_witness : Interp.execute 0 c5Core = .ok (c5Core, none) :=
  (C5_amended c5Core 0 (by decide) (by decide)).1 (by decide)

/-- C6, amended: the default next sequential address always lies in
`[0, coresize)`, but JMP targets are returned unwrapped: for an Immediate
A-field, `execute` returns the raw literal A-field value as the next
program counter, whatever its range. -/
theorem C6_amended (c : Core) (a : Int) (h0 : 0 ≤ a) (h1 : a < c.coresize) :
    (0 ≤ Interp.next a c ∧ Interp.next a c < c.coresize) ∧
    ((c.cellAt a).opcode = Token.JMP → (c.cellAt a).aMode = Token.IMMEDIATE →
      Interp.execute a c = .ok (c, some (c.cellAt a).aVal)) := by
  constructor
  · rw [next_eq_emod c a h0 h1]
    exact ⟨Int.emod_nonneg _ (by omega), Int.emod_lt_of_pos _ (by omega)⟩
  · intro hop hmode
    rw [execute_jmp_dispatch c a h0 h1 hop]
    unfold Interp.executeJmp
    rw [a_field_mode_ok c a h0 h1, a_field_val_ok c a h0 h1, hmode]
    dsimp only
    rw [if_pos rfl]

/-- C6, witness: the `JMP #100` fixture evaluated through the amended
theorem — the returned counter is the raw literal 100, and the wrapped
sequential successor of 0 is 1, inside `[0, 8)`. -/
theorem C6_witness :
    (0 ≤ Interp.next 0 c6Core ∧ Interp.next 0 c6Core < c6Core.coresize) ∧
    Interp.execute 0 c6Core = .ok (c6Core, some (c6Core.cellAt 0).aVal) :=
  ⟨(C6_amended c6Core 0 (by decide) (by decide)).1,
   (C6_amended c6Core 0 (by decide) (by decide)).2 (by decide) (by decide)⟩

theorem executeMov_direct_direct (c : Core) (p : Int) (h0 : 0 ≤ p)
    (h1 : p < c.coresize) (ham : (c.cellAt p).aMode = Token.DIRECT)
    (hbm : (c.cellAt p).bMode = Token.DIRECT) :
    Interp.executeMov p c =
      .ok (⟨c.cells.set (((c.cellAt p).bVal + p) % c.coresize).toNat
             (c.cellAt (((c.cellAt p).aVal + p) % c.coresize))⟩,
           Interp.next p
             ⟨c.cells.set (((c.cellAt p).bVal + p) % c.coresize).toNat
               (c.cellAt (((c.cellAt p).aVal + p) % c.coresize))⟩) := by
  have hsz : (0 : Int) < c.coresize := by omega
  have hs0 : 0 ≤ ((c.cellAt p).aVal + p) % c.coresize :=
    Int.emod_nonneg _ (by omega)
  have hs1 : ((c.cellAt p).aVal + p) % c.coresize < c.coresize :=
    Int.emod_lt_of_pos _ hsz
  have hd0 : 0 ≤ ((c.cellAt p).bVal + p) % c.coresize :=
    Int.emod_nonneg _ (by omega)
  have hd1 : ((c.cellAt p).bVal + p) % c.coresize < c.coresize :=
    Int.emod_lt_of_pos _ hsz
  unfold Interp.executeMov
  rw [a_field_mode_ok c p h0 h1, a_field_val_ok c p h0 h1,
    b_field_mode_ok c p h0 h1, b_field_val_ok c p h0 h1, ham, hbm]
  dsimp only
  norm_num [Token.DIRECT, Token.IMMEDIATE]
  rw [getDirectAddress_ok c ((c.cellAt p).aVal) p h0 h1]
  dsimp only
  rw [getDirectAddress_ok c ((c.cellAt p).bVal) p h0 h1]
  dsimp only
  rw [opcode_ok c _ hs0 hs1]
  dsimp only
  rw [a_field_mode_ok c _ hs0 hs1]
  dsimp only
  rw [a_field_val_ok c _ hs0 hs1]
  dsimp only
  rw [b_field_mode_ok c _ hs0 hs1]
  dsimp only
  rw [b_field_val_ok c _ hs0 hs1]
  dsimp only
  rw [put_instr_ok c _ _ _ _ _ _ hd0 hd1]

theorem executeMov_direct_immediate (c : Core) (p : Int) (h0 : 0 ≤ p)
    (h1 : p < c.coresize) (ham : (c.cellAt p).aMode = Token.DIRECT)
    (hbm : (c.cellAt p).bMode = Token.IMMEDIATE) :
    Interp.executeMov p c =
      .ok (⟨c.cells.set p.toNat
             { c.cellAt p with
                 bVal := (c.cellAt (((c.cellAt p).aVal + p) % c.coresize)).bVal }⟩,
           Interp.next p
             ⟨c.cells.set p.toNat
               { c.cellAt p with
                   bVal := (c.cellAt (((c.cellAt p).aVal + p) % c.coresize)).bVal }⟩) := by
  have hsz : (0 : Int) < c.coresize := by omega
  have hs0 : 0 ≤ ((c.cellAt p).aVal + p) % c.coresize :=
    Int.emod_nonneg _ (by omega)
  have hs1 : ((c.cellAt p).aVal + p) % c.coresize < c.coresize :=
    Int.emod_lt_of_pos _ hsz
  unfold Interp.executeMov
  rw [a_field_mode_ok c p h0 h1, a_field_val_ok c p h0 h1,
    b_field_mode_ok c p h0 h1, b_field_val_ok c p h0 h1, ham, hbm]
  dsimp only
  norm_num [Token.DIRECT, Token.IMMEDIATE]
  rw [getDirectAddress_ok c ((c.cellAt p).aVal) p h0 h1]
  dsimp only
  rw [b_field_val_ok c _ hs0 hs1]
  dsimp only
  rw [put_b_field_val_ok c _ p h0 h1]

theorem executeMov_indirect_immediate (c : Core) (p : Int) (h0 : 0 ≤ p)
    (h1 : p < c.coresize) (ham1 : (c.cellAt p).aMode ≠ Token.IMMEDIATE)
    (ham2 : (c.cellAt p).aMode ≠ Token.DIRECT)
    (hbm : (c.cellAt p).bMode = Token.IMMEDIATE) :
    Interp.executeMov p c =
      .ok (⟨c.cells.set p.toNat
             { c.cellAt p with
                 bVal := (c.cellAt (((c.cellAt p).aVal +
                   (c.cellAt (((c.cellAt p).aVal + p) % c.coresize)).aVal + p)
                   % c.coresize)).aVal }⟩,
           Interp.next p
             ⟨c.cells.set p.toNat
               { c.cellAt p with
                   bVal := (c.cellAt (((c.cellAt p).aVal +
                     (c.cellAt (((c.cellAt p).aVal + p) % c.coresize)).aVal + p)
                     % c.coresize)).aVal }⟩) := by
  have hsz : (0 : Int) < c.coresize := by omega
  have hi0 : 0 ≤ ((c.cellAt p).aVal + p) % c.coresize :=
    Int.emod_nonneg _ (by omega)
  have hi1 : ((c.cellAt p).aVal + p) % c.coresize < c.coresize :=
    Int.emod_lt_of_pos _ hsz
  have hs0 : 0 ≤ ((c.cellAt p).aVal +
      (c.cellAt (((c.cellAt p).aVal + p) % c.coresize)).aVal + p) % c.coresize :=
    Int.emod_nonneg _ (by omega)
  have hs1 : ((c.cellAt p).aVal +
      (c.cellAt (((c.cellAt p).aVal + p) % c.coresize)).aVal + p) % c.coresize
      < c.coresize :=
    Int.emod_lt_of_pos _ hsz
  unfold Interp.executeMov
  rw [a_field_mode_ok c p h0 h1, a_field_val_ok c p h0 h1,
    b_field_mode_ok c p h0 h1, b_field_val_ok c p h0 h1, hbm]
  dsimp only
  rw [if_neg ham1, if_neg ham2]
  rw [getDirectAddress_ok c ((c.cellAt p).aVal) p h0 h1]
  dsimp only
  rw [a_field_val_ok c _ hi0 hi1]
  dsimp only
  rw [getDirectAddress_ok c _ p h0 h1]
  dsimp only
  rw [if_pos rfl]
  rw [a_field_val_ok c _ hs0 hs1]
  dsimp only
  rw [put_b_field_val_ok c _ p h0 h1]

/-- C3, amended: a `MOV` with both fields Direct executed at an in-range
`p` with A-value `a` and B-value `b` copies the full instruction from
`(a + p) mod size` to `(b + p) mod size`, returns next program counter
`(p + 1) mod size`, and leaves every cell other than the destination
unchanged; the instruction at `p` itself is unchanged whenever the
destination `(b + p) mod size` differs from `p`. -/
theorem C3_amended (c : Core) (p a b : Int) (h0 : 0 ≤ p) (h1 : p < c.coresize)
    (hcell : c.cellAt p = ⟨Token.MOV, Token.DIRECT, a, Token.DIRECT, b⟩) :
    ∃ c1, Interp.execute p c = .ok (c1, some ((p + 1) % c.coresize)) ∧
      c1.cellAt ((b + p) % c.coresize) = c.cellAt ((a + p) % c.coresize) ∧
      (∀ q : Int, 0 ≤ q → q < c.coresize → q ≠ (b + p) % c.coresize →
        c1.cellAt q = c.cellAt q) ∧
      ((b + p) % c.coresize ≠ p → c1.cellAt p = c.cellAt p) := by
  have hop : (c.cellAt p).opcode = Token.MOV := by rw [hcell]
  have ham : (c.cellAt p).aMode = Token.DIRECT := by rw [hcell]
  have hav : (c.cellAt p).aVal = a := by rw [hcell]
  have hbm : (c.cellAt p).bMode = Token.DIRECT := by rw [hcell]
  have hbv : (c.cellAt p).bVal = b := by rw [hcell]
  have hsz : (0 : Int) < c.coresize := by omega
  have hd0 : 0 ≤ (b + p) % c.coresize := Int.emod_nonneg _ (by omega)
  have hd1 : (b + p) % c.coresize < c.coresize := Int.emod_lt_of_pos _ hsz
  have hmov := executeMov_direct_direct c p h0 h1 ham hbm
  rw [hav, hbv] at hmov
  refine ⟨⟨c.cells.set ((b + p) % c.coresize).toNat
    (c.cellAt ((a + p) % c.coresize))⟩, ?_, ?_, ?_, ?_⟩
  · rw [execute_mov_dispatch c p h0 h1 hop, hmov]
    dsimp only
    rw [next_congr c _ p (coresize_set c _ _), next_eq_emod c p h0 h1]
  · exact cellAt_set_self c _ _ hd0 hd1
  · intro q hq0 hq1 hqne
    exact cellAt_set_ne c _ q _ hd0 hq0 hqne
  · intro hne
    exact cellAt_set_ne c _ p _ hd0 h0 (fun hh => hne hh.symm)

/-- Test fixture for the C3 witness: `MOV $2, $3` at address 0 in a
size-8 core. -/
def w3Core : Core :=
  orUnchanged (Core.put_instr Token.MOV Token.DIRECT 2 Token.DIRECT 3 0
    (Core.init 8)) (Core.init 8)

/-- C3, witness: the amended theorem applied to the `MOV $2, $3` fixture. -/
theorem C3_witness :
    ∃ c1, Interp.execute 0 w3Core = .ok (c1, some ((0 + 1) % w3Core.coresize)) ∧
      c1.cellAt ((3 + 0) % w3Core.coresize) = w3Core.cellAt ((2 + 0) % w3Core.coresize) ∧
      (∀ q : Int, 0 ≤ q → q < w3Core.coresize → q ≠ (3 + 0) % w3Core.coresize →
        c1.cellAt q = w3Core.cellAt q) ∧
      ((3 + 0) % w3Core.coresize ≠ 0 → c1.cellAt 0 = w3Core.cellAt 0) :=
  C3_amended w3Core 0 2 3 (by decide) (by decide) (by decide)

/-- C4, amended: for a `MOV` whose B-mode is Immediate, executed at an
in-range `p`: if the A-mode is Direct, the B-field value of the cell at
`(a_val + p) mod size` is copied into `p`'s own B-field; if the A-mode is
any other non-immediate value (the code treats everything that is neither
Immediate nor Direct as indirect), the *A-field* value of the cell at the
indirectly resolved address
`(a_val + a_field_val((a_val + p) mod size) + p) mod size` is copied into
`p`'s B-field.  Either way the next program counter is `(p+1) mod size`. -/
theorem C4_amended (c : Core) (p : Int) (h0 : 0 ≤ p) (h1 : p < c.coresize)
    (hop : (c.cellAt p).opcode = Token.MOV)
    (hbm : (c.cellAt p).bMode = Token.IMMEDIATE) :
    ((c.cellAt p).aMode = Token.DIRECT →
      ∃ c1, Interp.execute p c = .ok (c1, some ((p + 1) % c.coresize)) ∧
        (c1.cellAt p).bVal = (c.cellAt (((c.cellAt p).aVal + p) % c.coresize)).bVal ∧
        c1.coresize = c.coresize) ∧
    ((c.cellAt p).aMode ≠ Token.IMMEDIATE → (c.cellAt p).aMode ≠ Token.DIRECT →
      ∃ c1, Interp.execute p c = .ok (c1, some ((p + 1) % c.coresize)) ∧
        (c1.cellAt p).bVal = (c.cellAt (((c.cellAt p).aVal +
          (c.cellAt (((c.cellAt p).aVal + p) % c.coresize)).aVal + p)
          % c.coresize)).aVal ∧
        c1.coresize = c.coresize) := by
  constructor
  · intro ham
    refine ⟨⟨c.cells.set p.toNat
      { c.cellAt p with
          bVal := (c.cellAt (((c.cellAt p).aVal + p) % c.coresize)).bVal }⟩,
      ?_, ?_, ?_⟩
    · rw [execute_mov_dispatch c p h0 h1 hop,
        executeMov_direct_immediate c p h0 h1 ham hbm]
      dsimp only
      rw [next_congr c _ p (coresize_set c _ _), next_eq_emod c p h0 h1]
    · rw [cellAt_set_self c p _ h0 h1]
    · exact coresize_set c _ _
  · intro ham1 ham2
    refine ⟨⟨c.cells.set p.toNat
      { c.cellAt p with
          bVal := (c.cellAt (((c.cellAt p).aVal +
            (c.cellAt (((c.cellAt p).aVal + p) % c.coresize)).aVal + p)
            % c.coresize)).aVal }⟩,
      ?_, ?_, ?_⟩
    · rw [execute_mov_dispatch c p h0 h1 hop,
        executeMov_indirect_immediate c p h0 h1 ham1 ham2 hbm]
      dsimp only
      rw [next_congr c _ p (coresize_set c _ _), next_eq_emod c p h0 h1]
    · rw [cellAt_set_self c p _ h0 h1]
    · exact coresize_set c _ _

/-- C4, witness: the amended theorem applied to the `MOV *1, #0` fixture —
the value copied into cell 0's B-field is the A-field value (5) of cell 2. -/
theorem C4_witness :
    ∃ c1, Interp.execute 0 c4Core = .ok (c1, some ((0 + 1) % c4Core.coresize)) ∧
      (c1.cellAt 0).bVal = (c4Core.cellAt (((c4Core.cellAt 0).aVal +
        (c4Core.cellAt (((c4Core.cellAt 0).aVal + 0) % c4Core.coresize)).aVal + 0)
        % c4Core.coresize)).aVal ∧
      c1.coresize = c4Core.coresize :=
  (C4_amended c4Core 0 (by decide) (by decide) (by decide) (by decide)).2
    (by decide) (by decide)

end MARS
